import Mathlib

/-!
Verification development for the marketing-customer-pitch repository.

The file embeds, as Lean definitions, the parts of the repository that the
verified properties are about: the BFF proxy routes and middleware under
src/bff, the WebSocket fan-out service, the frontend score displays and
type definitions, and a model of the backend orchestration quality gate
described by the specification (the Django backend that runs the
multi-agent pipeline is not among the shipped source files, so the quality
gate is modelled from the specification text).
-/

namespace MarketingPitch

/-! ### Orchestration quality gate (modelled from the spec) -/

/-- Modelled from the spec: the best-scoring pitch version seen among
versions 0..n, where the later version wins exact ties (section 4.1:
finalize with the best-scoring pitch seen across all iterations,
tie-break preferring the later iteration). `score i` is the overall score
of pitch version i (version 0 is the first draft, version i + 1 is the
refinement produced at iteration i). -/
def lastArgmax (score : ℕ → ℚ) : ℕ → ℕ
  | 0 => 0
  | n + 1 =>
    if score (lastArgmax score n) ≤ score (n + 1) then n + 1 else lastArgmax score n

/-- Modelled from the spec: the refinement loop of the orchestrator, which
is not among the shipped source files. At iteration i the pitch version i
is scored; if the overall score reaches the threshold the loop exits with
that version; otherwise, while fuel (remaining iterations) is positive,
Refine produces version i + 1 which is re-scored; with fuel exhausted the
loop exits with the best version seen so far, later version winning ties. -/
def gateLoop (threshold : ℚ) (score : ℕ → ℚ) : ℕ → ℕ → ℕ
  | 0, i => if threshold ≤ score i then i else lastArgmax score i
  | fuel + 1, i =>
    if threshold ≤ score i then i else gateLoop threshold score fuel (i + 1)

/-- Modelled from the spec: the iteration at which the refinement loop
stops scoring, starting from iteration i with the given remaining fuel. -/
def exitIteration (threshold : ℚ) (score : ℕ → ℚ) : ℕ → ℕ → ℕ
  | 0, i => i
  | fuel + 1, i =>
    if threshold ≤ score i then i else exitIteration threshold score fuel (i + 1)

/-- Modelled from the spec: a whole run of the quality gate with iteration
count starting at 0 and at most maxIterations refinements; the result is
the pitch version handed to Finalizing. The function is total: exhausting
the iterations still produces a final pitch, never a failure. -/
def qualityGate (threshold : ℚ) (score : ℕ → ℚ) (maxIterations : ℕ) : ℕ :=
  gateLoop threshold score maxIterations 0

theorem lastArgmax_le (score : ℕ → ℚ) : ∀ n, lastArgmax score n ≤ n := by
  intro n
  induction n with
  | zero => simp [lastArgmax]
  | succ n ih =>
    rw [lastArgmax]
    split_ifs with h
    · exact le_rfl
    · exact le_trans ih (by omega)

theorem score_le_lastArgmax (score : ℕ → ℚ) :
    ∀ n k, k ≤ n → score k ≤ score (lastArgmax score n) := by
  intro n
  induction n with
  | zero =>
    intro k hk
    have hk0 : k = 0 := Nat.le_zero.mp hk
    subst hk0
    simp [lastArgmax]
  | succ n ih =>
    intro k hk
    rw [lastArgmax]
    split_ifs with h
    · rcases Nat.lt_succ_iff_lt_or_eq.mp (Nat.lt_succ_of_le hk) with hk' | hk'
      · exact le_trans (ih k (Nat.lt_succ_iff.mp hk')) h
      · subst hk'
        exact le_rfl
    · push_neg at h
      rcases Nat.lt_succ_iff_lt_or_eq.mp (Nat.lt_succ_of_le hk) with hk' | hk'
      · exact ih k (Nat.lt_succ_iff.mp hk')
      · subst hk'
        exact le_of_lt h

theorem score_lt_of_lastArgmax_lt (score : ℕ → ℚ) :
    ∀ n k, k ≤ n → lastArgmax score n < k → score k < score (lastArgmax score n) := by
  intro n
  induction n with
  | zero =>
    intro k hk hlt
    simp only [lastArgmax] at hlt
    omega
  | succ n ih =>
    intro k hk hlt
    rw [lastArgmax] at hlt ⊢
    split_ifs at hlt ⊢ with h
    · omega
    · push_neg at h
      rcases Nat.lt_succ_iff_lt_or_eq.mp (Nat.lt_succ_of_le hk) with hk' | hk'
      · exact ih k (Nat.lt_succ_iff.mp hk') hlt
      · subst hk'
        exact h

theorem gateLoop_first_pass (threshold : ℚ) (score : ℕ → ℚ) (j : ℕ)
    (hj : threshold ≤ score j) :
    ∀ fuel i, i ≤ j → j ≤ i + fuel →
      (∀ k, i ≤ k → k < j → score k < threshold) →
      gateLoop threshold score fuel i = j := by
  intro fuel
  induction fuel with
  | zero =>
    intro i hij hji hbelow
    have hi : i = j := by omega
    subst hi
    simp [gateLoop, hj]
  | succ fuel ih =>
    intro i hij hji hbelow
    by_cases hi : threshold ≤ score i
    · have hij' : i = j := by
        rcases Nat.lt_or_ge i j with h | h
        · exact absurd hi (not_le.mpr (hbelow i le_rfl h))
        · omega
      subst hij'
      simp [gateLoop, hi]
    · have hij' : i < j := lt_of_le_of_ne hij (fun h => hi (h ▸ hj))
      rw [gateLoop, if_neg hi]
      exact ih (i + 1) hij' (by omega) (fun k hk hkj => hbelow k (by omega) hkj)

theorem gateLoop_exhausted (threshold : ℚ) (score : ℕ → ℚ) :
    ∀ fuel i, (∀ k, i ≤ k → k ≤ i + fuel → score k < threshold) →
      gateLoop threshold score fuel i = lastArgmax score (i + fuel) := by
  intro fuel
  induction fuel with
  | zero =>
    intro i h
    have hi := h i le_rfl (by omega)
    simp [gateLoop, not_le.mpr hi]
  | succ fuel ih =>
    intro i h
    have hi := h i le_rfl (by omega)
    rw [gateLoop, if_neg (not_le.mpr hi)]
    have heq : i + 1 + fuel = i + (fuel + 1) := by omega
    rw [ih (i + 1) (fun k hk hk2 => h k (by omega) (by omega)), heq]

theorem exitIteration_first_pass (threshold : ℚ) (score : ℕ → ℚ) (j : ℕ)
    (hj : threshold ≤ score j) :
    ∀ fuel i, i ≤ j → j ≤ i + fuel →
      (∀ k, i ≤ k → k < j → score k < threshold) →
      exitIteration threshold score fuel i = j := by
  intro fuel
  induction fuel with
  | zero =>
    intro i hij hji hbelow
    have hi : i = j := by omega
    subst hi
    rfl
  | succ fuel ih =>
    intro i hij hji hbelow
    by_cases hi : threshold ≤ score i
    · have hij' : i = j := by
        rcases Nat.lt_or_ge i j with h | h
        · exact absurd hi (not_le.mpr (hbelow i le_rfl h))
        · omega
      subst hij'
      simp [exitIteration, hi]
    · have hij' : i < j := lt_of_le_of_ne hij (fun h => hi (h ▸ hj))
      rw [exitIteration, if_neg hi]
      exact ih (i + 1) hij' (by omega) (fun k hk hkj => hbelow k (by omega) hkj)

theorem exitIteration_exhausted (threshold : ℚ) (score : ℕ → ℚ) :
    ∀ fuel i, (∀ k, i ≤ k → k ≤ i + fuel → score k < threshold) →
      exitIteration threshold score fuel i = i + fuel := by
  intro fuel
  induction fuel with
  | zero =>
    intro i _
    rfl
  | succ fuel ih =>
    intro i h
    have hi := h i le_rfl (by omega)
    rw [exitIteration, if_neg (not_le.mpr hi)]
    have := ih (i + 1) (fun k hk hk2 => h k (by omega) (by omega))
    omega

/-- C1: after each Scoring stage the orchestrator compares the overall
score to the threshold. The loop exits at the first iteration whose score
reaches the threshold, finalizing that pitch version; below threshold with
iterations remaining, Refine produces the next version which is re-scored;
and when every score through maxIterations stays below the threshold, the
run still completes (the gate is a total function), exiting at iteration
maxIterations and finalizing the best-scoring version among all
iterations, preferring the later version on exact score ties. -/
theorem quality_gate_spec (threshold : ℚ) (score : ℕ → ℚ) (maxIterations : ℕ) :
    (∀ j, j ≤ maxIterations → threshold ≤ score j →
      (∀ k, k < j → score k < threshold) →
      qualityGate threshold score maxIterations = j
      ∧ exitIteration threshold score maxIterations 0 = j)
    ∧ ((∀ i, i ≤ maxIterations → score i < threshold) →
      exitIteration threshold score maxIterations 0 = maxIterations
      ∧ qualityGate threshold score maxIterations = lastArgmax score maxIterations
      ∧ lastArgmax score maxIterations ≤ maxIterations
      ∧ (∀ k, k ≤ maxIterations → score k ≤ score (lastArgmax score maxIterations))
      ∧ (∀ k, k ≤ maxIterations → lastArgmax score maxIterations < k →
          score k < score (lastArgmax score maxIterations))) := by
  constructor
  · intro j hj hjs hbelow
    constructor
    · exact gateLoop_first_pass threshold score j hjs maxIterations 0 (by omega) (by omega)
        (fun k _ hkj => hbelow k hkj)
    · exact exitIteration_first_pass threshold score j hjs maxIterations 0 (by omega) (by omega)
        (fun k _ hkj => hbelow k hkj)
  · intro hall
    refine ⟨?_, ?_, lastArgmax_le score maxIterations,
      fun k hk => score_le_lastArgmax score maxIterations k hk,
      fun k hk hlt => score_lt_of_lastArgmax_lt score maxIterations k hk hlt⟩
    · have := exitIteration_exhausted threshold score maxIterations 0
        (fun k _ hk2 => hall k (by omega))
      omega
    · have := gateLoop_exhausted threshold score maxIterations 0
        (fun k _ hk2 => hall k (by omega))
      simpa [qualityGate] using this

/-- Scenario C from the spec, as witness: every score stays at 0.3 with
threshold 0.7 and maxIterations 3; the run exits at iteration 3 and
finalizes the best-scoring version, which by the later-wins tie-break is
version 3. -/
theorem quality_gate_spec_witness :
    exitIteration (7/10) (fun _ => (3 : ℚ)/10) 3 0 = 3
    ∧ qualityGate (7/10) (fun _ => (3 : ℚ)/10) 3 = lastArgmax (fun _ => (3 : ℚ)/10) 3
    ∧ lastArgmax (fun _ => (3 : ℚ)/10) 3 = 3 := by
  have h := (quality_gate_spec (7/10) (fun _ => (3 : ℚ)/10) 3).2
    (by intro i _; norm_num)
  exact ⟨h.1, h.2.1, by norm_num [lastArgmax]⟩

/-! ### The orchestrate route (src/bff/src/routes/agents.ts) -/

/-- The result shape returned by a backendProxy call (backendProxy.ts):
the HTTP status and the response data, here kept as an abstract string. -/
structure ProxyResult where
  status : ℕ
  data : String
deriving DecidableEq

/-- One agent-status event as broadcast by
wsService.broadcastAgentStatus from the orchestrate route. -/
structure AgentStatusEvent where
  agentName : String
  state : String
  message : String
deriving DecidableEq

/-- The HTTP reply the route sends: res.status(result.status).json(data). -/
structure HandlerResponse where
  status : ℕ
  body : String
deriving DecidableEq

/-- What the route hands back to Express: either a JSON reply, or the
error forwarded to the error middleware through next(error). -/
inductive OrchestrateOutput
  | reply (response : HandlerResponse)
  | forwardError
deriving DecidableEq

/-- Observable behavior of one orchestrate request: the agent-status
events broadcast over WebSocket, in order, and the final output. -/
structure OrchestrateRun where
  events : List AgentStatusEvent
  output : OrchestrateOutput
deriving DecidableEq

/-- Embedding of the POST /api/v1/agents/orchestrate handler in
src/bff/src/routes/agents.ts: it broadcasts a started event, awaits the
full backend pipeline call (issued through backendProxy.postAI with the
aiOperations timeout), and only then, on success, broadcasts a completed
event and replies with the backend status and data; on failure it
broadcasts a failed event and forwards the error. The argument is the
outcome of the awaited backend call. -/
def orchestrateHandler (backendCall : Except Unit ProxyResult) : OrchestrateRun :=
  let started : AgentStatusEvent :=
    ⟨"orchestrator", "started", "Multi-agent pipeline orchestration initiated"⟩
  match backendCall with
  | Except.ok result =>
    { events := [started,
        ⟨"orchestrator", "completed", "Multi-agent pipeline orchestration completed"⟩],
      output := OrchestrateOutput.reply ⟨result.status, result.data⟩ }
  | Except.error _ =>
    { events := [started,
        ⟨"orchestrator", "failed", "Multi-agent pipeline orchestration failed"⟩],
      output := OrchestrateOutput.forwardError }

/-- C2 counterexample: if the route returned a run identifier immediately,
without waiting for the multi-agent pipeline to finish, its output would be
fixed before the pipeline outcome existed, hence the same for every
pipeline outcome. It is not: two different completed-pipeline results
produce two different replies, so the handler waits for the pipeline. -/
theorem orchestrate_not_immediate :
    ¬ ∃ fixed : OrchestrateOutput, ∀ backendCall : Except Unit ProxyResult,
      (orchestrateHandler backendCall).output = fixed := by
  rintro ⟨fixed, h⟩
  have h1 := h (Except.ok ⟨200, "runA"⟩)
  have h2 := h (Except.ok ⟨200, "runB"⟩)
  exact absurd (h1.trans h2.symm) (by decide)

/-- C2 amended: the orchestrate route does not return a run identifier
immediately; it waits for the multi-agent pipeline to finish and replies
with the backend call's own status and full result data, bracketing the
call with a started event and then a completed event on success, or a
failed event before forwarding the error on failure. -/
theorem orchestrate_waits_for_pipeline (result : ProxyResult) :
    (orchestrateHandler (Except.ok result)).output
      = OrchestrateOutput.reply ⟨result.status, result.data⟩
    ∧ (orchestrateHandler (Except.ok result)).events.map AgentStatusEvent.state
      = ["started", "completed"]
    ∧ (orchestrateHandler (Except.error ())).output = OrchestrateOutput.forwardError
    ∧ (orchestrateHandler (Except.error ())).events.map AgentStatusEvent.state
      = ["started", "failed"] :=
  ⟨rfl, rfl, rfl, rfl⟩

/-! ### Score scale at the display boundaries (frontend) -/

/-- From ScoreBar in ScoreDisplay.tsx: the width percentage of the bar for
a stored score, with the default maxScore of 10
(percentage = safeScore / maxScore * 100). -/
def scoreBarPercentage (s : ℚ) : ℚ := s / 10 * 100

/-- From ScoreBar in ScoreDisplay.tsx: the label rendered beside the bar,
as the pair of the displayed value and the scale maximum; a stored score is
shown as value-out-of-10. -/
def scoreBarLabel (s : ℚ) : ℚ × ℚ := (s, 10)

/-- From the Dashboard recent-pitches score cell: the stored overall score
rendered as a percentage, computed as overall times 100. -/
def dashboardScorePercent (s : ℚ) : ℚ := s * 100

/-- From the AnalyticsDashboard average-score KPI: the stored average score
rendered as a percentage, computed as the score times 100. -/
def analyticsAvgScorePercent (s : ℚ) : ℚ := s * 100

/-- C3 counterexample: the display boundaries do not apply one scale. A
stored score of 1/2 is rendered by ScoreBar as 5 percent of its scale (a
[0,10] reading) but by the Dashboard score cell as 50 percent (a [0,1]
reading), so the same stored value is interpreted on two different
scales. -/
theorem score_scale_mixed :
    scoreBarPercentage (1/2) = 5
    ∧ dashboardScorePercent (1/2) = 50
    ∧ scoreBarPercentage (1/2) ≠ dashboardScorePercent (1/2) := by
  refine ⟨by norm_num [scoreBarPercentage], by norm_num [dashboardScorePercent], ?_⟩
  norm_num [scoreBarPercentage, dashboardScorePercent]

/-- C3 amended: the code mixes two score-scale conventions rather than
picking one: ScoreDisplay and ScoreBar interpret a stored score on the
[0,10] scale (label out of 10, bar width s / 10 * 100), while the
Dashboard recent-pitches cell and the AnalyticsDashboard KPI interpret the
same stored value on the [0,1] scale (rendering s * 100 percent); the two
percentage renderings agree on no nonzero stored value, though the two
[0,1]-scale displays agree with each other everywhere. -/
theorem score_scale_two_conventions (s : ℚ) :
    analyticsAvgScorePercent s = dashboardScorePercent s
    ∧ (scoreBarLabel s).2 = 10
    ∧ (s ≠ 0 → scoreBarPercentage s ≠ dashboardScorePercent s) := by
  refine ⟨rfl, rfl, fun hs hcontr => hs ?_⟩
  have hb : scoreBarPercentage s = s * 10 := by
    unfold scoreBarPercentage
    ring
  have hd : dashboardScorePercent s = s * 100 := rfl
  rw [hb, hd] at hcontr
  have hz : s * 90 = 0 := by linarith
  exact (mul_eq_zero.mp hz).resolve_right (by norm_num)

/-- C3 amended witness at the stored value 1/2. -/
theorem score_scale_two_conventions_witness :
    analyticsAvgScorePercent (1/2) = dashboardScorePercent (1/2)
    ∧ scoreBarPercentage (1/2) ≠ dashboardScorePercent (1/2) :=
  ⟨(score_scale_two_conventions (1/2)).1,
    (score_scale_two_conventions (1/2)).2.2 (by norm_num)⟩

/-! ### The two parallel route implementations (C4) -/

/-- The timeout configuration surface of src/bff/src/config.ts. -/
structure Timeouts where
  defaultMs : ℕ
  aiOperations : ℕ
deriving DecidableEq

/-- The defaults in config.ts: DEFAULT_TIMEOUT 30000 ms and
AI_TIMEOUT 120000 ms. -/
def defaultTimeouts : Timeouts := ⟨30000, 120000⟩

/-- The orchestrate call in src/bff/src/routes/agents.ts goes through
backendProxy.postAI, whose axios client is created with
config.timeouts.aiOperations. -/
def orchestrateTimeoutAgents (cfg : Timeouts) : ℕ := cfg.aiOperations

/-- The orchestrate call in the alternate agents route file goes directly
through axios.post with a hardcoded timeout of 300000 ms, bypassing the
config surface. -/
def orchestrateTimeoutAlt (_cfg : Timeouts) : ℕ := 300000

/-- One request to the MCP server: the URL path posted to, and the
JSON-RPC method named in the body when the JSON-RPC envelope is used. -/
structure McpRequest where
  path : String
  rpcMethod : Option String
deriving DecidableEq

/-- src/bff/src/routes/mcp.ts lists tools by posting a JSON-RPC body with
method tools/list to the server root. -/
def mcpListToolsRequest : McpRequest := ⟨"/", some "tools/list"⟩

/-- src/bff/src/routes/mcp.ts executes a tool by posting a JSON-RPC body
with method tools/call to the server root. -/
def mcpCallToolRequest : McpRequest := ⟨"/", some "tools/call"⟩

/-- The alternate MCP route file lists tools by posting the request body
directly to the /tools/list path, with no JSON-RPC envelope. -/
def mcpListToolsRequestAlt : McpRequest := ⟨"/tools/list", none⟩

/-- The alternate MCP route file executes a tool by posting name and
arguments directly to the /tools/call path, with no JSON-RPC envelope. -/
def mcpCallToolRequestAlt : McpRequest := ⟨"/tools/call", none⟩

/-- C4 counterexample: under the shipped default configuration the two
orchestrate implementations use different timeouts (120000 ms from the
aiOperations config surface versus a hardcoded 300000 ms), and the two MCP
proxy implementations issue different tool-listing invocations, so the two
parallel route implementations are not equivalent. -/
theorem route_implementations_diverge :
    orchestrateTimeoutAgents defaultTimeouts = 120000
    ∧ orchestrateTimeoutAlt defaultTimeouts = 300000
    ∧ orchestrateTimeoutAgents defaultTimeouts ≠ orchestrateTimeoutAlt defaultTimeouts
    ∧ mcpListToolsRequest ≠ mcpListToolsRequestAlt := by
  refine ⟨rfl, rfl, by decide, ?_⟩
  intro h
  exact absurd (congrArg McpRequest.rpcMethod h) (by decide)

/-- C4 amended: the two parallel route implementations are not equivalent.
One orchestrate implementation reads the single canonical timeout surface
(config.timeouts.aiOperations) while the other hardcodes 300000 ms, so
they agree exactly when the configured aiOperations timeout is set to
300000 ms (not under the shipped defaults); and the two MCP proxy
implementations invoke different targets, a JSON-RPC method posted to the
server root versus a bare path, for both listing and execution. -/
theorem route_implementations_divergence_characterized (cfg : Timeouts) :
    orchestrateTimeoutAgents cfg = cfg.aiOperations
    ∧ orchestrateTimeoutAlt cfg = 300000
    ∧ (orchestrateTimeoutAgents cfg = orchestrateTimeoutAlt cfg ↔ cfg.aiOperations = 300000)
    ∧ mcpListToolsRequest ≠ mcpListToolsRequestAlt
    ∧ mcpCallToolRequest ≠ mcpCallToolRequestAlt
    ∧ mcpListToolsRequest.rpcMethod = some "tools/list"
    ∧ mcpListToolsRequestAlt.path = "/tools/list" := by
  refine ⟨rfl, rfl, Iff.rfl, ?_, ?_, rfl, rfl⟩
  · intro h
    exact absurd (congrArg McpRequest.rpcMethod h) (by decide)
  · intro h
    exact absurd (congrArg McpRequest.rpcMethod h) (by decide)

/-! ### A2A message types (src/frontend/src/types/index.ts) -/

/-- The closed set of message types of the A2AMessage interface in
src/frontend/src/types/index.ts. -/
inductive A2AMessageType
  | task_request
  | task_response
  | status_update
  | data_share
  | error
deriving DecidableEq

/-- The string literal each A2AMessage message type carries on the wire,
from the union type in src/frontend/src/types/index.ts. -/
def A2AMessageType.wireName : A2AMessageType → String
  | .task_request => "task_request"
  | .task_response => "task_response"
  | .status_update => "status_update"
  | .data_share => "data_share"
  | .error => "error"

/-- The five message kinds named by the specification sentence
(request, response, delegate, broadcast, error). -/
def specMessageKinds : List String :=
  ["request", "response", "delegate", "broadcast", "error"]

/-- The five message kinds actually named by the code. -/
def codeMessageKinds : List String :=
  ["task_request", "task_response", "status_update", "data_share", "error"]

/-- C5 counterexample: task_request is a message type of the code but is
not among the five kinds request, response, delegate, broadcast, error
claimed by the specification. -/
theorem message_type_names_differ :
    A2AMessageType.wireName A2AMessageType.task_request = "task_request"
    ∧ "task_request" ∉ specMessageKinds := by
  exact ⟨rfl, by decide⟩

/-- C5 amended: every A2A message type is one of exactly the five kinds
task_request, task_response, status_update, data_share, error: the five
constructors map onto exactly that list of distinct wire names, and every
message type's wire name is in it. -/
theorem message_type_closed_set :
    (∀ t : A2AMessageType, t.wireName ∈ codeMessageKinds)
    ∧ [A2AMessageType.task_request, A2AMessageType.task_response,
        A2AMessageType.status_update, A2AMessageType.data_share,
        A2AMessageType.error].map A2AMessageType.wireName = codeMessageKinds
    ∧ codeMessageKinds.Nodup
    ∧ codeMessageKinds.length = 5 := by
  refine ⟨fun t => ?_, rfl, by decide, rfl⟩
  cases t <;> decide

/-! ### PitchScore and its overall invariant (C6) -/

/-- The PitchScore shape of src/frontend/src/types/index.ts: five dimension
scores, the overall score, free-text feedback and improvement
suggestions (scores as exact rationals in the embedding). -/
structure PitchScore where
  persuasiveness : ℚ
  clarity : ℚ
  relevance : ℚ
  personalization : ℚ
  call_to_action : ℚ
  overall_score : ℚ
  feedback : String
  suggestions : List String
deriving DecidableEq

/-- Modelled from the spec: the backend scoring step that fills a
PitchScore is not among the shipped source files (the repository only
ships the frontend PitchScore type and the BFF proxy routes); per the
data-model section, overall is derived as the arithmetic mean of the five
dimension scores. -/
def computeOverall (p c r pz cta : ℚ) : ℚ := (p + c + r + pz + cta) / 5

/-- Modelled from the spec: the only way a PitchScore is produced sets
overall from the dimensions, never independently. -/
def mkPitchScore (p c r pz cta : ℚ) (feedback : String)
    (suggestions : List String) : PitchScore :=
  ⟨p, c, r, pz, cta, computeOverall p c r pz cta, feedback, suggestions⟩

/-- A PitchScore whose stored overall equals the value recomputed from its
five stored dimension scores. -/
def overallConsistent (s : PitchScore) : Prop :=
  s.overall_score
    = computeOverall s.persuasiveness s.clarity s.relevance s.personalization s.call_to_action

/-- C6: for every score produced by the scoring step, the overall value
recomputed from the five stored dimension scores equals the stored overall
exactly (rationals carry no rounding, so the equality holds with zero
tolerance), and the stored overall is the arithmetic mean of the
dimensions, never an independent value. -/
theorem overall_recomputed_matches (p c r pz cta : ℚ) (feedback : String)
    (suggestions : List String) :
    overallConsistent (mkPitchScore p c r pz cta feedback suggestions)
    ∧ (mkPitchScore p c r pz cta feedback suggestions).overall_score
      = (p + c + r + pz + cta) / 5
    ∧ (mkPitchScore p c r pz cta feedback suggestions).persuasiveness = p
    ∧ (mkPitchScore p c r pz cta feedback suggestions).call_to_action = cta :=
  ⟨rfl, rfl, rfl, rfl⟩

/-! ### The BFF error handler (C8) -/

/-- The data an axios error may carry from the backend response body. -/
structure BackendErrorData where
  detail : Option String
  message : Option String
deriving DecidableEq

/-- The errors reaching the BFF error middleware, by the branch that
recognizes them: an axios error from a proxied backend call (with the
optional backend response status and body), an AppError carrying its own
status and code, an express-validator error (err.name equals
ValidationError), or any other error. -/
inductive BffError
  | axiosError (responseStatus : Option ℕ) (responseData : Option BackendErrorData)
  | appError (status : ℕ) (code : String) (message : String)
  | validationError (message : String)
  | otherError (message : String)
deriving DecidableEq

/-- The JSON error body the middleware sends; the HTTP response status
always equals the status field (the details field of the source is opaque
to every property here and is left out). -/
structure ErrorResponse where
  status : ℕ
  message : String
  code : String
  timestamp : String
  path : String
deriving DecidableEq

/-- The or-else chain of the axios branch, with the JavaScript treatment
of absent and of empty strings as falsy. -/
def jsStringOr (o : Option String) (fallback : String) : String :=
  match o with
  | some s => if s.isEmpty then fallback else s
  | none => fallback

/-- Embedding of errorHandler in the BFF error middleware: an axios error
replies with the backend status when a backend response exists and 502
otherwise, code BACKEND_ERROR, message from the backend detail or message
fields; an AppError replies with its own status, code and message; an
error named ValidationError replies 400 with code VALIDATION_ERROR; any
other error replies 500 with code INTERNAL_ERROR (message hidden when the
environment is production); every reply carries the timestamp and the
request path. -/
def errorHandler (err : BffError) (timestamp path : String) (production : Bool) :
    ErrorResponse :=
  match err with
  | BffError.axiosError responseStatus responseData =>
    { status := responseStatus.getD 502
      message :=
        match responseData with
        | some d => jsStringOr d.detail (jsStringOr d.message "Backend service error")
        | none => "Backend service error"
      code := "BACKEND_ERROR", timestamp := timestamp, path := path }
  | BffError.appError status code message =>
    { status := status, message := message, code := code
      timestamp := timestamp, path := path }
  | BffError.validationError _ =>
    { status := 400, message := "Validation failed", code := "VALIDATION_ERROR"
      timestamp := timestamp, path := path }
  | BffError.otherError message =>
    { status := 500
      message := if production then "Internal server error" else message
      code := "INTERNAL_ERROR", timestamp := timestamp, path := path }

/-- C8 counterexample: the middleware has a fourth branch the claim
ignores. An error named ValidationError is neither an axios error nor an
AppError, yet it is answered with 400 and code VALIDATION_ERROR, not with
500 and code INTERNAL_ERROR. -/
theorem error_handler_validation_branch :
    (errorHandler (BffError.validationError "bad field") "t0" "/api/x" false).status = 400
    ∧ (errorHandler (BffError.validationError "bad field") "t0" "/api/x" false).code
      = "VALIDATION_ERROR"
    ∧ ¬((errorHandler (BffError.validationError "bad field") "t0" "/api/x" false).status = 500
      ∧ (errorHandler (BffError.validationError "bad field") "t0" "/api/x" false).code
        = "INTERNAL_ERROR") := by
  refine ⟨rfl, rfl, ?_⟩
  intro h
  exact absurd h.1 (by decide)

/-- C8 amended: an axios error from a proxied backend call is answered
with the backend response status when one exists and 502 otherwise, code
BACKEND_ERROR; an AppError with its own status and code; an error named
ValidationError with 400 and code VALIDATION_ERROR; every remaining error
with 500 and code INTERNAL_ERROR; and in every case the JSON error body
carries the timestamp and the request path. -/
theorem error_handler_characterized (timestamp path msg code : String)
    (production : Bool) (st : ℕ) (d : Option BackendErrorData) :
    ((errorHandler (BffError.axiosError (some st) d) timestamp path production).status = st
      ∧ (errorHandler (BffError.axiosError (some st) d) timestamp path production).code
        = "BACKEND_ERROR")
    ∧ ((errorHandler (BffError.axiosError none d) timestamp path production).status = 502
      ∧ (errorHandler (BffError.axiosError none d) timestamp path production).code
        = "BACKEND_ERROR")
    ∧ ((errorHandler (BffError.appError st code msg) timestamp path production).status = st
      ∧ (errorHandler (BffError.appError st code msg) timestamp path production).code = code)
    ∧ ((errorHandler (BffError.validationError msg) timestamp path production).status = 400
      ∧ (errorHandler (BffError.validationError msg) timestamp path production).code
        = "VALIDATION_ERROR")
    ∧ ((errorHandler (BffError.otherError msg) timestamp path production).status = 500
      ∧ (errorHandler (BffError.otherError msg) timestamp path production).code
        = "INTERNAL_ERROR")
    ∧ (∀ e : BffError,
        (errorHandler e timestamp path production).timestamp = timestamp
        ∧ (errorHandler e timestamp path production).path = path) := by
  refine ⟨⟨rfl, rfl⟩, ⟨rfl, rfl⟩, ⟨rfl, rfl⟩, ⟨rfl, rfl⟩, ⟨rfl, rfl⟩, fun e => ?_⟩
  cases e <;> exact ⟨rfl, rfl⟩

/-! ### WebSocket broadcast (src/bff/src/services/websocket.ts) -/

/-- The readiness states of a ws socket. -/
inductive ReadyState
  | CONNECTING
  | OPEN
  | CLOSING
  | CLOSED
deriving DecidableEq

/-- One entry of the client map of WebSocketService: the client id, its
socket state, and the set of channels it subscribed to (as a list). -/
structure WSClient where
  id : String
  readyState : ReadyState
  channels : List String
deriving DecidableEq

/-- The message shape serialized to every recipient of a broadcast. -/
structure WSMessage where
  type : String
  channel : String
  payload : String
  timestamp : String
deriving DecidableEq

/-- Embedding of WebSocketService.broadcast: one synchronous pass over the
client map that sends the serialized message to exactly the clients whose
subscription set contains the channel and whose socket is OPEN; the pass
is a total function of the client list and never waits on, or fails
because of, any receiver. The result lists the performed sends in client
order. -/
def broadcast (clients : List WSClient) (channel ty payload ts : String) :
    List (String × WSMessage) :=
  clients.filterMap fun c =>
    if channel ∈ c.channels ∧ c.readyState = ReadyState.OPEN
    then some (c.id, ⟨ty, channel, payload, ts⟩)
    else none

/-- C7: for every channel, event type, payload and set of connected
clients, including none, broadcast completes as a total synchronous
function of the publisher alone (no receiver can delay or fail it), and an
entry is sent exactly to the clients whose socket is OPEN and whose
subscription set contains the channel, each receiving the one serialized
message. -/
theorem broadcast_targets_open_subscribers (clients : List WSClient)
    (channel ty payload ts : String) (entry : String × WSMessage) :
    (entry ∈ broadcast clients channel ty payload ts
      ↔ ∃ c ∈ clients, c.readyState = ReadyState.OPEN ∧ channel ∈ c.channels
          ∧ entry = (c.id, ⟨ty, channel, payload, ts⟩))
    ∧ broadcast [] channel ty payload ts = []
    ∧ (broadcast clients channel ty payload ts).length ≤ clients.length := by
  refine ⟨?_, rfl, List.length_filterMap_le _ _⟩
  constructor
  · intro h
    rcases List.mem_filterMap.mp h with ⟨c, hc, hf⟩
    by_cases hcond : channel ∈ c.channels ∧ c.readyState = ReadyState.OPEN
    · rw [if_pos hcond] at hf
      exact ⟨c, hc, hcond.2, hcond.1, (Option.some_inj.mp hf).symm⟩
    · rw [if_neg hcond] at hf
      exact absurd hf (by simp)
  · rintro ⟨c, hc, hopen, hchan, rfl⟩
    exact List.mem_filterMap.mpr ⟨c, hc, if_pos ⟨hchan, hopen⟩⟩

/-! ### MCP proxy routes (src/bff/src/routes/mcp.ts) -/

/-- The names of the ten static tool definitions the routes fall back to
when the MCP server is unavailable. -/
def staticToolNames : List String :=
  ["research_customer", "initial_pitch_prompt", "score_pitch", "refine_pitch",
   "analyze_customer_sentiment", "generate_subject_line", "competitive_positioning",
   "pitch_ab_variants", "calculate_lead_score", "generate_followup_sequence"]

/-- The optional fields of a successful tools/list reply the handler
inspects: data.result.tools, then data.tools. -/
structure McpListReply where
  resultTools : Option (List String)
  tools : Option (List String)
deriving DecidableEq

/-- The HTTP reply of the tools-listing handlers: res.json answers with
status 200 and the chosen tool list. -/
structure ToolsReply where
  status : ℕ
  tools : List String
deriving DecidableEq

/-- Embedding of the GET and POST /api/v1/mcp/tools handlers: on a
successful MCP call the tools come from data.result.tools, else
data.tools, else the static list; any failure of the call falls back to
the static list; either way the reply is a 200 JSON reply. -/
def listToolsHandler (call : Except Unit McpListReply) : ToolsReply :=
  match call with
  | Except.ok reply => ⟨200, reply.resultTools.getD (reply.tools.getD staticToolNames)⟩
  | Except.error _ => ⟨200, staticToolNames⟩

/-- The failure modes of the tools/call MCP request the execute handlers
distinguish: a refused connection (axios code ECONNREFUSED) or anything
else. -/
inductive McpCallFailure
  | connRefused
  | otherFailure
deriving DecidableEq

/-- The outcome of an execute handler: a 200 JSON result, an AppError
handed to next with a status and code, or the raw error forwarded. -/
inductive ExecuteOutcome
  | jsonResult (result : String)
  | appErrorNext (status : ℕ) (code : String)
  | forwardRawError
deriving DecidableEq

/-- JavaScript falsiness of the optional tool-name string drawn from the
request body: absent or empty. -/
def strFalsy : Option String → Bool
  | none => true
  | some s => s.isEmpty

/-- The JavaScript or of two optional strings, as used for
toolName or tool_name in the legacy route. -/
def jsOptionOr (a b : Option String) : Option String :=
  match a with
  | some s => if s.isEmpty then b else some s
  | none => b

/-- Embedding of POST /api/v1/mcp/tools/execute: a falsy tool_name is
answered through next with AppError 400 VALIDATION_ERROR before any MCP
call; otherwise the MCP call is made and a success is a 200 JSON result, a
refused connection becomes AppError 503 MCP_UNAVAILABLE, and any other
failure is forwarded raw. The Bool records whether the MCP server was
contacted. -/
def executeToolHandler (tool_name : Option String)
    (call : Except McpCallFailure String) : ExecuteOutcome × Bool :=
  if strFalsy tool_name then
    (ExecuteOutcome.appErrorNext 400 "VALIDATION_ERROR", false)
  else
    match call with
    | Except.ok result => (ExecuteOutcome.jsonResult result, true)
    | Except.error McpCallFailure.connRefused =>
      (ExecuteOutcome.appErrorNext 503 "MCP_UNAVAILABLE", true)
    | Except.error McpCallFailure.otherFailure => (ExecuteOutcome.forwardRawError, true)

/-- Embedding of the legacy POST /api/v1/mcp/execute route: the tool name
is toolName or tool_name from the body, then the behavior matches the
tools/execute route. -/
def legacyExecuteHandler (toolName tool_name : Option String)
    (call : Except McpCallFailure String) : ExecuteOutcome × Bool :=
  executeToolHandler (jsOptionOr toolName tool_name) call

/-- C9: listing tools always answers 200, and any failure of the MCP call
yields the static 10-tool list; executing with a missing tool name answers
400 VALIDATION_ERROR without contacting the MCP server (on both execute
routes); and a refused MCP connection during execution answers 503
MCP_UNAVAILABLE. -/
theorem mcp_routes_error_policy :
    (∀ call, (listToolsHandler call).status = 200)
    ∧ listToolsHandler (Except.error ()) = ⟨200, staticToolNames⟩
    ∧ staticToolNames.length = 10
    ∧ (∀ tn call, strFalsy tn = true →
        executeToolHandler tn call
          = (ExecuteOutcome.appErrorNext 400 "VALIDATION_ERROR", false))
    ∧ (∀ a b call, strFalsy (jsOptionOr a b) = true →
        legacyExecuteHandler a b call
          = (ExecuteOutcome.appErrorNext 400 "VALIDATION_ERROR", false))
    ∧ (∀ tn, strFalsy tn = false →
        executeToolHandler tn (Except.error McpCallFailure.connRefused)
          = (ExecuteOutcome.appErrorNext 503 "MCP_UNAVAILABLE", true)) := by
  refine ⟨fun call => ?_, rfl, rfl, ?_, ?_, ?_⟩
  · cases call <;> rfl
  · intro tn call h
    simp [executeToolHandler, h]
  · intro a b call h
    simp [legacyExecuteHandler, executeToolHandler, h]
  · intro tn h
    simp [executeToolHandler, h]

/-- C9 witness: a missing tool name is rejected without contacting the
server, and a refused connection for the score_pitch tool answers 503. -/
theorem mcp_routes_error_policy_witness :
    executeToolHandler none (Except.ok "r")
      = (ExecuteOutcome.appErrorNext 400 "VALIDATION_ERROR", false)
    ∧ legacyExecuteHandler (some "") none (Except.ok "r")
      = (ExecuteOutcome.appErrorNext 400 "VALIDATION_ERROR", false)
    ∧ executeToolHandler (some "score_pitch") (Except.error McpCallFailure.connRefused)
      = (ExecuteOutcome.appErrorNext 503 "MCP_UNAVAILABLE", true) :=
  ⟨mcp_routes_error_policy.2.2.2.1 none (Except.ok "r") rfl,
    mcp_routes_error_policy.2.2.2.2.1 (some "") none (Except.ok "r") rfl,
    mcp_routes_error_policy.2.2.2.2.2 (some "score_pitch") (by decide)⟩

/-! ### Request id middleware (src/bff/src/middleware/requestLogger.ts) -/

/-- The JavaScript expression choosing the request id: the x-request-id
header when present and non-empty (a falsy empty header falls through),
else the freshly generated uuid. -/
def effectiveRequestId (header : Option String) (freshUuid : String) : String :=
  match header with
  | some s => if s.isEmpty then freshUuid else s
  | none => freshUuid

/-- The four places the middleware puts the chosen id: the X-Request-ID
response header, req.requestId, and the requestId fields of the request
and response log entries. -/
structure LoggerEffect where
  responseHeader : String
  reqRequestId : String
  requestLogId : String
  responseLogId : String
deriving DecidableEq

/-- Embedding of requestLogger: one id is chosen per request and used
unchanged in all four places. -/
def requestLogger (header : Option String) (freshUuid : String) : LoggerEffect :=
  let requestId := effectiveRequestId header freshUuid
  ⟨requestId, requestId, requestId, requestId⟩

/-- C10 counterexample: a present but empty x-request-id header is falsy
in the JavaScript or-chain, so the response header carries a freshly
generated uuid instead of equaling the present header value. -/
theorem request_id_empty_header :
    (requestLogger (some "") "fresh-uuid-1").responseHeader = "fresh-uuid-1"
    ∧ (requestLogger (some "") "fresh-uuid-1").responseHeader ≠ "" := by
  exact ⟨rfl, by decide⟩

/-- C10 amended: the response X-Request-ID equals the request x-request-id
header when that header is present and non-empty, and is the freshly
generated uuid otherwise (an absent header, or a present but empty one);
the same id is attached to the request object and used unchanged in both
the request and the response log entries. -/
theorem request_id_propagation (header : Option String) (freshUuid : String) :
    (∀ s, header = some s → ¬s.isEmpty →
      (requestLogger header freshUuid).responseHeader = s)
    ∧ (header = none → (requestLogger header freshUuid).responseHeader = freshUuid)
    ∧ (header = some "" → (requestLogger header freshUuid).responseHeader = freshUuid)
    ∧ (requestLogger header freshUuid).reqRequestId
      = (requestLogger header freshUuid).responseHeader
    ∧ (requestLogger header freshUuid).requestLogId
      = (requestLogger header freshUuid).responseHeader
    ∧ (requestLogger header freshUuid).responseLogId
      = (requestLogger header freshUuid).responseHeader := by
  refine ⟨?_, ?_, ?_, rfl, rfl, rfl⟩
  · rintro s rfl hs
    simp [requestLogger, effectiveRequestId, hs]
  · rintro rfl
    rfl
  · rintro rfl
    rfl

/-- C10 amended witness: a non-empty header wins, an absent header falls
back to the fresh uuid. -/
theorem request_id_propagation_witness :
    (requestLogger (some "abc") "uuid-1").responseHeader = "abc"
    ∧ (requestLogger none "uuid-1").responseHeader = "uuid-1" :=
  ⟨(request_id_propagation (some "abc") "uuid-1").1 "abc" rfl (by decide),
    (request_id_propagation none "uuid-1").2.1 rfl⟩

end MarketingPitch
